import Mathlib

/-!
Verification of the fluid-mcp-server numeric and tool-handler layer.

This file gives a shallow embedding, in Lean 4, of the pure parts of the
repository:

* the numeric formatting helpers of the formatting module
  (decodeInt256, sharesToTokenAmount, formatRateToAPY, formatPercentage,
  formatVaultPercent),
* the provider cache (getProvider),
* the transaction-building tool handlers (vault T1 operate, swap exact
  input/output) with the external ethers library calls and RPC reads
  abstracted as oracle inputs,
* the all-vaults read handler with its resolver calls abstracted as an
  oracle of fallible results.

JavaScript bigints are embedded as Lean Int (bigint division truncates
toward zero, written Int.tdiv); JavaScript doubles are idealized as exact
rational arithmetic; JavaScript strings are embedded as Lean String, or as
List Char where character-level reasoning is needed.
-/

/-! ## Formatting module: numeric helpers (decodeInt256, sharesToTokenAmount) -/

/-- Constant 2^256 from the formatting module. -/
def TWO_POW_256 : ℤ := 2 ^ 256

/-- Constant computed inside decodeInt256: TWO_POW_256 / 2n - 1n. -/
def MAX_INT256 : ℤ := TWO_POW_256 / 2 - 1

/-- Embedding of decodeInt256: reinterpret a uint256 value as a two's
complement int256; a value > 2^255 - 1 means it is a negative int256. -/
def decodeInt256 (raw : ℤ) : ℤ :=
  if raw > MAX_INT256 then raw - TWO_POW_256 else raw

/-- Constant EXCHANGE_PRICE_PRECISION = 10n ** 12n. -/
def EXCHANGE_PRICE_PRECISION : ℤ := 10 ^ 12

/-- Embedding of sharesToTokenAmount: JS bigint division truncates toward
zero, hence Int.tdiv. -/
def sharesToTokenAmount (shares exchangePrice : ℤ) : ℤ :=
  if shares = 0 ∨ exchangePrice = 0 then 0
  else
    let absShares := if shares < 0 then -shares else shares
    let absAmount := Int.tdiv (absShares * exchangePrice) EXCHANGE_PRICE_PRECISION
    if shares < 0 then -absAmount else absAmount

/-- C1: for every raw with 0 ≤ raw < 2^256, decodeInt256 returns raw
unchanged when raw ≤ 2^255 - 1 and returns raw - 2^256 when
raw > 2^255 - 1 (the two's-complement reinterpretation); being a plain
total function on ℤ, it has no failure modes. -/
theorem C1_decodeInt256_twos_complement (raw : ℤ) (h0 : 0 ≤ raw)
    (h1 : raw < 2 ^ 256) :
    (raw ≤ 2 ^ 255 - 1 → decodeInt256 raw = raw) ∧
    (2 ^ 255 - 1 < raw → decodeInt256 raw = raw - 2 ^ 256) := by
  have hmax : MAX_INT256 = 2 ^ 255 - 1 := by norm_num [MAX_INT256, TWO_POW_256]
  have htwo : TWO_POW_256 = 2 ^ 256 := rfl
  simp only [decodeInt256, hmax, htwo]
  constructor
  · intro h
    rw [if_neg (not_lt.mpr h)]
  · intro h
    rw [if_pos h]

/-- Witness for C1 at the concrete inputs 3 (below the boundary) and
2^255 (above the boundary). -/
theorem C1_witness :
    (0 ≤ (3 : ℤ) ∧ (3 : ℤ) < 2 ^ 256 ∧ decodeInt256 3 = 3) ∧
    (0 ≤ (2 : ℤ) ^ 255 ∧ (2 : ℤ) ^ 255 < 2 ^ 256 ∧
      decodeInt256 (2 ^ 255) = 2 ^ 255 - 2 ^ 256) :=
  ⟨⟨by norm_num, by norm_num,
    (C1_decodeInt256_twos_complement 3 (by norm_num) (by norm_num)).1
      (by norm_num)⟩,
   ⟨by positivity, by norm_num,
    (C1_decodeInt256_twos_complement (2 ^ 255) (by positivity) (by norm_num)).2
      (by norm_num)⟩⟩

/-- C2: for all integers shares and exchangePrice, sharesToTokenAmount
equals shares * exchangePrice divided by 10^12 with the division
truncating toward zero (computing on absolute values and reapplying the
sign of shares is exactly truncation toward zero). -/
theorem C2_sharesToTokenAmount_truncating (shares exchangePrice : ℤ) :
    sharesToTokenAmount shares exchangePrice =
      Int.tdiv (shares * exchangePrice) EXCHANGE_PRICE_PRECISION := by
  simp only [sharesToTokenAmount]
  split_ifs with h hneg
  · rcases h with rfl | rfl <;> simp [Int.zero_tdiv]
  · rw [neg_mul, Int.neg_tdiv, neg_neg]
  · rfl

set_option maxRecDepth 8000 in
/-- C4: two's-complement round-trip. For every raw in [0, 2^256),
re-encoding decodeInt256 raw modulo 2^256 gives back raw, and
decodeInt256 raw lies in [-2^255, 2^255 - 1]; conversely every signed
value v in [-2^255, 2^255 - 1] is hit, with v % 2^256 as its unique
preimage. Together these make decodeInt256 a bijection from [0, 2^256)
onto [-2^255, 2^255 - 1]. -/
theorem C4_decodeInt256_roundtrip (raw : ℤ) (h0 : 0 ≤ raw)
    (h1 : raw < 2 ^ 256) :
    decodeInt256 raw % 2 ^ 256 = raw ∧
    -(2 ^ 255) ≤ decodeInt256 raw ∧ decodeInt256 raw ≤ 2 ^ 255 - 1 ∧
    (∀ v : ℤ, -(2 ^ 255) ≤ v → v ≤ 2 ^ 255 - 1 →
      decodeInt256 (v % 2 ^ 256) = v) := by
  refine ⟨?_, ?_, ?_, ?_⟩
  · simp only [decodeInt256, MAX_INT256, TWO_POW_256]
    split_ifs <;> omega
  · simp only [decodeInt256, MAX_INT256, TWO_POW_256]
    split_ifs <;> omega
  · simp only [decodeInt256, MAX_INT256, TWO_POW_256]
    split_ifs <;> omega
  · intro v hv0 hv1
    simp only [decodeInt256, MAX_INT256, TWO_POW_256]
    split_ifs <;> omega

/-- Witness for C4 at raw = 3 (below the boundary). -/
theorem C4_witness :
    0 ≤ (3 : ℤ) ∧ (3 : ℤ) < 2 ^ 256 ∧ decodeInt256 3 % 2 ^ 256 = 3 :=
  ⟨by norm_num, by norm_num,
    (C4_decodeInt256_roundtrip 3 (by norm_num) (by norm_num)).1⟩

/-- Counterexample for C7 as stated: the claim quantifies over every
exchangePrice, but at shares = 1 (non-negative) and
exchangePrice = -10^12 the result is -1, which is negative. -/
theorem C7_counterexample :
    0 ≤ (1 : ℤ) ∧ sharesToTokenAmount 1 (-(10 ^ 12)) < 0 := by
  constructor
  · norm_num
  · show sharesToTokenAmount 1 (-(10 ^ 12)) < 0
    norm_num [sharesToTokenAmount, EXCHANGE_PRICE_PRECISION]

/-- C7 amended: when exchangePrice is non-negative (which holds for the
uint256 exchange prices the code reads on-chain), sharesToTokenAmount
preserves the sign of shares — never positive for negative shares, never
negative for non-negative shares — and returns 0 on shares = 0 and on
exchangePrice = 0. -/
theorem C7_sharesToTokenAmount_sign (shares exchangePrice : ℤ)
    (hep : 0 ≤ exchangePrice) :
    (shares < 0 → sharesToTokenAmount shares exchangePrice ≤ 0) ∧
    (0 ≤ shares → 0 ≤ sharesToTokenAmount shares exchangePrice) ∧
    sharesToTokenAmount 0 exchangePrice = 0 ∧
    sharesToTokenAmount shares 0 = 0 := by
  refine ⟨?_, ?_, ?_, ?_⟩
  · intro hs
    simp only [sharesToTokenAmount]
    split_ifs with h
    · exact le_refl 0
    · exact neg_nonpos.mpr
        (Int.tdiv_nonneg (mul_nonneg (by omega) hep) (by norm_num [EXCHANGE_PRICE_PRECISION]))
  · intro hs
    simp only [sharesToTokenAmount]
    split_ifs with h hneg
    · exact le_refl 0
    · omega
    · exact Int.tdiv_nonneg (mul_nonneg (by omega) hep)
        (by norm_num [EXCHANGE_PRICE_PRECISION])
  · simp [sharesToTokenAmount]
  · simp [sharesToTokenAmount]

/-- Witness for C7 at shares = -2, exchangePrice = 10^12. -/
theorem C7_witness :
    0 ≤ (10 : ℤ) ^ 12 ∧ sharesToTokenAmount (-2) (10 ^ 12) ≤ 0 :=
  ⟨by positivity,
    (C7_sharesToTokenAmount_sign (-2) (10 ^ 12) (by positivity)).1 (by norm_num)⟩

/-! ## Percentage rendering: JS toFixed(2) and parseFloat, idealized

JS number values are idealized as exact rationals; a rendered string is a
List Char. toFixed(2) rounds to the nearest hundredth, ties toward
positive infinity (the larger candidate, as the ECMAScript spec picks),
and always prints two fractional digits; interpolating the parseFloat of
such a string prints the same number with trailing fractional zeros (and
a then-trailing decimal point) removed. -/

/-- Decimal digit as a character. -/
def digitChar : ℕ → Char
  | 0 => '0'
  | 1 => '1'
  | 2 => '2'
  | 3 => '3'
  | 4 => '4'
  | 5 => '5'
  | 6 => '6'
  | 7 => '7'
  | 8 => '8'
  | 9 => '9'
  | _ => '?'

/-- Decimal rendering of a natural number. -/
def natChars (n : ℕ) : List Char :=
  if n = 0 then ['0'] else (Nat.digits 10 n).reverse.map digitChar

/-- Digits of a value scaled to hundredths (magnitude m, given sign
characters), printed with exactly two fractional digits. -/
def fixed2Core (sign : List Char) (m : ℕ) : List Char :=
  sign ++ natChars (m / 100) ++ ['.', digitChar (m % 100 / 10), digitChar (m % 10)]

/-- Digits of a value scaled to hundredths (magnitude m, given sign
characters) with trailing fractional zeros (and a then-empty fractional
part) dropped. -/
def strippedCore (sign : List Char) (m : ℕ) : List Char :=
  if m % 100 = 0 then sign ++ natChars (m / 100)
  else if m % 10 = 0 then
    sign ++ natChars (m / 100) ++ ['.', digitChar (m % 100 / 10)]
  else
    sign ++ natChars (m / 100) ++ ['.', digitChar (m % 100 / 10), digitChar (m % 10)]

/-- Characters of x.toFixed(2): always exactly two fractional digits. -/
def toFixed2Chars (q : ℚ) : List Char :=
  let n : ℤ := round (q * 100)
  fixed2Core (if n < 0 then ['-'] else []) n.natAbs

/-- Characters of String(parseFloat(x.toFixed(2))): trailing zeros of the
fractional part (and a then-empty fractional part) are dropped. -/
def strippedFixed2Chars (q : ℚ) : List Char :=
  let n : ℤ := round (q * 100)
  strippedCore (if n < 0 then ['-'] else []) n.natAbs

/-- Embedding of formatPercentage (identical in both formatting modules):
interpolation of (Number(value) / scale * 100).toFixed(2) followed by a
percent sign. The default scale argument is 1e4. -/
def formatPercentage (value : ℤ) (scale : ℚ) : List Char :=
  toFixed2Chars ((value : ℚ) / scale * 100) ++ ['%']

/-- Embedding of formatVaultPercent: interpolation of
parseFloat((basisPoints / 100).toFixed(2)) followed by a percent sign. -/
def formatVaultPercent (basisPoints : ℚ) : List Char :=
  strippedFixed2Chars (basisPoints / 100) ++ ['%']

/-- Embedding of the basis-point formatRateToAPY of the second formatting
module: pct = Number(rateBps) / 100, then interpolation of
parseFloat(pct.toFixed(2)) followed by a percent sign. -/
def formatRateToAPY_bps (rateBps : ℤ) : List Char :=
  strippedFixed2Chars ((rateBps : ℚ) / 100) ++ ['%']

/-- Seconds per year used by the ray-scaled formatRateToAPY:
365.25 * 24 * 60 * 60 = 31557600. -/
def secondsPerYear : ℕ := 31557600

/-- Value formatted by the ray-scaled formatRateToAPY of
src/utils/formatting.ts (before its final toFixed(4)): the per-second
rate is rateRay / 1e27 and the APY percentage is
((1 + rate) ^ secondsPerYear - 1) * 100, with JS doubles idealized as
exact rationals. -/
def rayApyPercent (rateRay : ℤ) : ℚ :=
  ((1 + (rateRay : ℚ) / 10 ^ 27) ^ secondsPerYear - 1) * 100

/-- Value formatted by the basis-point formatRateToAPY of the second
formatting module: pct = Number(rateBps) / 100, no compounding. -/
def bpsApyPercent (rateBps : ℤ) : ℚ := (rateBps : ℚ) / 100

/-- Spec-side definition, following the claim's words: the annual
percentage obtained from a per-second rate by the fixed compounding
formula APY = (1 + rate) ^ secondsPerYear - 1. -/
def specApyCompoundPercent (rate : ℚ) : ℚ :=
  ((1 + rate) ^ secondsPerYear - 1) * 100

/-! ## Character-level lemmas for the rendering helpers -/

/-- Digit characters are never a decimal point. -/
theorem digitChar_ne_dot (d : ℕ) : digitChar d ≠ '.' := by
  unfold digitChar
  split <;> decide

/-- Digit characters of nonzero digits are never the zero character. -/
theorem digitChar_ne_zero (d : ℕ) (h : d ≠ 0) (h9 : d ≤ 9) : digitChar d ≠ '0' := by
  interval_cases d <;> first | exact absurd rfl h | decide

/-- Decimal renderings of naturals contain no decimal point. -/
theorem dot_not_mem_natChars (n : ℕ) : '.' ∉ natChars n := by
  unfold natChars
  split
  · decide
  · intro hmem
    obtain ⟨d, -, hd⟩ := List.mem_map.mp hmem
    exact digitChar_ne_dot d hd

/-- When the stripped rendering contains a decimal point, its last
character is a nonzero digit. -/
theorem strippedCore_no_trailing_zero (sign : List Char) (hsign : '.' ∉ sign)
    (m : ℕ) :
    '.' ∈ strippedCore sign m → (strippedCore sign m).getLast? ≠ some '0' := by
  unfold strippedCore
  split_ifs with h100 h10
  · intro hmem
    exfalso
    rcases List.mem_append.mp hmem with hs | hns
    · exact hsign hs
    · exact dot_not_mem_natChars _ hns
  · intro hmem
    have hlast : (sign ++ natChars (m / 100) ++
        ['.', digitChar (m % 100 / 10)]).getLast? =
        some (digitChar (m % 100 / 10)) := by
      simp [List.getLast?_append]
    rw [hlast]
    simp only [ne_eq, Option.some.injEq]
    exact fun hc => digitChar_ne_zero _ (by omega) (by omega) hc
  · intro hmem
    have hlast : (sign ++ natChars (m / 100) ++
        ['.', digitChar (m % 100 / 10), digitChar (m % 10)]).getLast? =
        some (digitChar (m % 10)) := by
      simp [List.getLast?_append]
    rw [hlast]
    simp only [ne_eq, Option.some.injEq]
    exact fun hc => digitChar_ne_zero _ (by omega) (by omega) hc

/-- Stripping lemma lifted to the rational-level renderer. -/
theorem strippedFixed2Chars_no_trailing_zero (q : ℚ) :
    '.' ∈ strippedFixed2Chars q → (strippedFixed2Chars q).getLast? ≠ some '0' := by
  have hsign : '.' ∉ (if round (q * 100) < 0 then ['-'] else ([] : List Char)) := by
    split <;> decide
  simpa only [strippedFixed2Chars] using
    strippedCore_no_trailing_zero _ hsign (round (q * 100)).natAbs

/-- Counterexample for C6 as stated: formatPercentage does not strip
trailing zeros — at value 5000 with the default scale 1e4 it renders
"50.00%", which contains a decimal point and whose numeric part ends in
the digit '0'. -/
theorem C6_counterexample :
    formatPercentage 5000 10000 = ['5', '0', '.', '0', '0', '%'] ∧
    '.' ∈ formatPercentage 5000 10000 ∧
    (formatPercentage 5000 10000).dropLast.getLast? = some '0' := by
  have h : formatPercentage 5000 10000 = ['5', '0', '.', '0', '0', '%'] := by
    simp only [formatPercentage, toFixed2Chars]
    norm_num [round_eq, natChars, digitChar, fixed2Core]
  refine ⟨h, ?_, ?_⟩
  · rw [h]; decide
  · rw [h]; decide

/-- C6 amended: formatVaultPercent and the basis-point formatRateToAPY
round to two decimals and strip trailing zeros from the fractional part
before appending the percent sign (when their output contains a decimal
point, the character before the percent sign is a nonzero digit);
formatPercentage rounds to two decimals but always renders exactly two
fractional digits, keeping trailing zeros. -/
theorem C6_percent_formatting (bp : ℚ) (r v : ℤ) (scale : ℚ) :
    ('.' ∈ formatVaultPercent bp →
      (formatVaultPercent bp).dropLast.getLast? ≠ some '0') ∧
    (formatVaultPercent bp).getLast? = some '%' ∧
    ('.' ∈ formatRateToAPY_bps r →
      (formatRateToAPY_bps r).dropLast.getLast? ≠ some '0') ∧
    (formatRateToAPY_bps r).getLast? = some '%' ∧
    (∃ pre d1 d2, formatPercentage v scale =
        pre ++ ['.', digitChar d1, digitChar d2, '%'] ∧ '.' ∉ pre) := by
  refine ⟨?_, ?_, ?_, ?_, ?_⟩
  · intro hmem
    have hmem' : '.' ∈ strippedFixed2Chars (bp / 100) := by
      rcases List.mem_append.mp hmem with hs | hs
      · exact hs
      · simp at hs
    simp only [formatVaultPercent, List.dropLast_concat]
    exact strippedFixed2Chars_no_trailing_zero _ hmem'
  · simp only [formatVaultPercent]
    exact List.getLast?_concat _
  · intro hmem
    have hmem' : '.' ∈ strippedFixed2Chars ((r : ℚ) / 100) := by
      rcases List.mem_append.mp hmem with hs | hs
      · exact hs
      · simp at hs
    simp only [formatRateToAPY_bps, List.dropLast_concat]
    exact strippedFixed2Chars_no_trailing_zero _ hmem'
  · simp only [formatRateToAPY_bps]
    exact List.getLast?_concat _
  · refine ⟨(if round ((v : ℚ) / scale * 100 * 100) < 0 then ['-'] else []) ++
      natChars ((round ((v : ℚ) / scale * 100 * 100)).natAbs / 100),
      (round ((v : ℚ) / scale * 100 * 100)).natAbs % 100 / 10,
      (round ((v : ℚ) / scale * 100 * 100)).natAbs % 10, ?_, ?_⟩
    · simp [formatPercentage, toFixed2Chars, fixed2Core, List.append_assoc]
    · intro hmem
      rcases List.mem_append.mp hmem with hs | hs
      · revert hs
        split <;> decide
      · exact dot_not_mem_natChars _ hs

/-- Witness for C6 at basisPoints = 5 ("0.05%"), rateBps = 407 ("4.07%")
and formatPercentage at 5000 / scale 1e4 ("50.00%"). -/
theorem C6_witness :
    (formatVaultPercent 5).dropLast.getLast? ≠ some '0' ∧
    (formatVaultPercent 5).getLast? = some '%' ∧
    (formatRateToAPY_bps 407).dropLast.getLast? ≠ some '0' ∧
    (formatRateToAPY_bps 407).getLast? = some '%' ∧
    (∃ pre d1 d2, formatPercentage 5000 10000 =
        pre ++ ['.', digitChar d1, digitChar d2, '%'] ∧ '.' ∉ pre) := by
  have h5 : formatVaultPercent 5 = ['0', '.', '0', '5', '%'] := by
    simp only [formatVaultPercent, strippedFixed2Chars]
    norm_num [round_eq, natChars, digitChar, strippedCore]
  have h407 : formatRateToAPY_bps 407 = ['4', '.', '0', '7', '%'] := by
    simp only [formatRateToAPY_bps, strippedFixed2Chars]
    norm_num [round_eq, natChars, digitChar, strippedCore]
  obtain ⟨a, b, c, d, e⟩ := C6_percent_formatting 5 407 5000 10000
  exact ⟨a (by rw [h5]; decide), b, c (by rw [h407]; decide), d, e⟩

/-- Counterexample for C5 as stated: the basis-point formatRateToAPY does
not apply the compounding formula. At rateBps = 407 the code formats the
value 407 / 100 = 4.07, while the compounding formula applied to the
corresponding per-second rate 407 / 10^4 yields a value exceeding
31557600 * 4.07, so the two differ. -/
theorem C5_counterexample :
    bpsApyPercent 407 ≠ specApyCompoundPercent ((407 : ℚ) / 10 ^ 4) := by
  have key : ∀ A : ℚ, 1 + (31557600 : ℚ) * ((407 : ℚ) / 10 ^ 4) ≤ A →
      ((407 : ℤ) : ℚ) / 100 ≠ (A - 1) * 100 := by
    intro A hA h
    push_cast at h
    linarith
  have hb : 1 + ((31557600 : ℕ) : ℚ) * ((407 : ℚ) / 10 ^ 4) ≤
      (1 + (407 : ℚ) / 10 ^ 4) ^ (31557600 : ℕ) :=
    one_add_mul_le_pow (by norm_num) 31557600
  have hb2 : 1 + (31557600 : ℚ) * ((407 : ℚ) / 10 ^ 4) ≤
      (1 + (407 : ℚ) / 10 ^ 4) ^ (31557600 : ℕ) := by
    exact_mod_cast hb
  intro h
  exact key ((1 + (407 : ℚ) / 10 ^ 4) ^ (31557600 : ℕ)) hb2
    (by simpa only [bpsApyPercent, specApyCompoundPercent, secondsPerYear] using h)

/-- C5 amended: only the ray-scaled formatRateToAPY
(src/utils/formatting.ts) converts its per-second rate (scaled by 1e27)
via the fixed compounding formula APY = (1 + rate)^secondsPerYear - 1
with secondsPerYear = 365.25 * 24 * 60 * 60; the basis-point
formatRateToAPY of the second formatting module performs no compounding
and simply divides its basis-point input by 100. -/
theorem C5_rate_formatters (rateRay rateBps : ℤ) :
    rayApyPercent rateRay = specApyCompoundPercent ((rateRay : ℚ) / 10 ^ 27) ∧
    (secondsPerYear : ℚ) = 365.25 * 24 * 60 * 60 ∧
    bpsApyPercent rateBps = (rateBps : ℚ) / 100 :=
  ⟨rfl, by norm_num [secondsPerYear], rfl⟩

/-! ## Chain configuration and the provider cache (src/config/chains.ts,
src/utils/provider.ts)

A JS provider object is represented by a numeric identity drawn from a
counter, so that "identical cached provider" is expressible; the Map of
providers is an association list searched from the front (keys are never
shadowed, since an insert only happens when the key is absent). -/

/-- Embedding of the ChainConfig interface. -/
structure ChainConfig where
  chainId : ℕ
  name : String
  rpcDefault : String
  explorer : String
  nativeToken : String
  wrappedNativeToken : String
deriving DecidableEq

/-- Embedding of the CHAINS table. -/
def CHAINS : List (String × ChainConfig) :=
  [("ethereum", ⟨1, "Ethereum Mainnet", "https://eth.llamarpc.com",
      "https://etherscan.io", "0xEeeeeEeeeEeEeeEeEeEeeEEEeeeeEeeeeeeeEEeE",
      "0xC02aaA39b223FE8D0A0e5C4F27eAD9083C756Cc2"⟩),
   ("arbitrum", ⟨42161, "Arbitrum One", "https://arb1.arbitrum.io/rpc",
      "https://arbiscan.io", "0xEeeeeEeeeEeEeeEeEeEeeEEEeeeeEeeeeeeeEEeE",
      "0x82aF49447D8a07e3bd95BD0d56f35241523fBab1"⟩),
   ("base", ⟨8453, "Base", "https://mainnet.base.org",
      "https://basescan.org", "0xEeeeeEeeeEeEeeEeEeEeeEEEeeeeEeeeeeeeEEeE",
      "0x4200000000000000000000000000000000000006"⟩),
   ("polygon", ⟨137, "Polygon PoS", "https://polygon-rpc.com",
      "https://polygonscan.com", "0xEeeeeEeeeEeEeeEeEeEeeEEEeeeeEeeeeeeeEEeE",
      "0x0d500B1d8E8eF31E21C99d1Db9A6444d3ADf1270"⟩),
   ("plasma", ⟨9745, "Plasma", "https://rpc.plasma.to",
      "https://plasmascan.to", "0xEeeeeEeeeEeEeeEeEeEeeEEEeeeeEeeeeeeeEEeE",
      "0x4200000000000000000000000000000000000006"⟩)]

/-- Lowercasing as used by chain.toLowerCase() on the ASCII chain names. -/
def jsToLower (s : String) : String := String.mk (s.data.map Char.toLower)

/-- Embedding of getChainConfig; the source throws on an unknown chain,
embedded as none. -/
def getChainConfig? (chain : String) : Option ChainConfig :=
  CHAINS.lookup (jsToLower chain)

/-- State of the module-level providerCache Map together with the
provider-identity counter. -/
structure ProviderState where
  cache : List (String × ℕ)
  nextId : ℕ
deriving DecidableEq

/-- Resolution of the endpoint URL: customRpc || config.rpcDefault, where
an empty string is falsy in JS. -/
def resolveRpcUrl (config : ChainConfig) (customRpc : Option String) : String :=
  match customRpc with
  | some r => if r = "" then config.rpcDefault else r
  | none => config.rpcDefault

/-- Embedding of getProvider: look up the chain config (none when the
chain is unsupported), resolve the endpoint URL, and look up or insert a
provider under the key chain ++ ":" ++ rpcUrl. -/
def getProvider (chain : String) (customRpc : Option String)
    (s : ProviderState) : Option (ℕ × ProviderState) :=
  match getChainConfig? chain with
  | none => none
  | some config =>
    let rpcUrl := resolveRpcUrl config customRpc
    let cacheKey := chain ++ ":" ++ rpcUrl
    match s.cache.lookup cacheKey with
    | some p => some (p, s)
    | none => some (s.nextId, ⟨(cacheKey, s.nextId) :: s.cache, s.nextId + 1⟩)

/-- C8: getProvider is an idempotent lookup-or-insert on a cache keyed by
chain ++ ":" ++ rpcUrl. Whenever a call succeeds with provider p and
state s', the provider is cached under that key in s', and calling again
with the same chain and custom RPC URL returns the identical provider p
and leaves the state unchanged (it returns s' itself). -/
theorem C8_getProvider_idempotent (chain : String) (customRpc : Option String)
    (s : ProviderState) (p : ℕ) (s' : ProviderState)
    (h : getProvider chain customRpc s = some (p, s')) :
    (∀ config, getChainConfig? chain = some config →
      s'.cache.lookup (chain ++ ":" ++ resolveRpcUrl config customRpc) = some p) ∧
    getProvider chain customRpc s' = some (p, s') := by
  unfold getProvider at h ⊢
  cases hcfg : getChainConfig? chain with
  | none => rw [hcfg] at h; exact absurd h (by simp)
  | some config =>
    rw [hcfg] at h
    simp only at h
    constructor
    · intro config' hconfig'
      injection hconfig' with hcc
      subst hcc
      cases hl : s.cache.lookup (chain ++ ":" ++ resolveRpcUrl config customRpc) with
      | some q =>
        rw [hl] at h
        simp only [Option.some.injEq, Prod.mk.injEq] at h
        obtain ⟨rfl, rfl⟩ := h
        exact hl
      | none =>
        rw [hl] at h
        simp only [Option.some.injEq, Prod.mk.injEq] at h
        obtain ⟨rfl, rfl⟩ := h
        simp [List.lookup]
    · simp only
      cases hl : s.cache.lookup (chain ++ ":" ++ resolveRpcUrl config customRpc) with
      | some q =>
        rw [hl] at h
        simp only [Option.some.injEq, Prod.mk.injEq] at h
        obtain ⟨rfl, rfl⟩ := h
        rw [hl]
      | none =>
        rw [hl] at h
        simp only [Option.some.injEq, Prod.mk.injEq] at h
        obtain ⟨rfl, rfl⟩ := h
        simp [List.lookup]

/-- Witness for C8: on the empty cache, requesting an ethereum provider
inserts provider 0 under the default-URL key, and the call is
reproducible on the resulting state. -/
theorem C8_witness :
    getProvider "ethereum" none ⟨[], 0⟩ =
      some (0, ⟨[("ethereum:https://eth.llamarpc.com", 0)], 1⟩) ∧
    getProvider "ethereum" none ⟨[("ethereum:https://eth.llamarpc.com", 0)], 1⟩ =
      some (0, ⟨[("ethereum:https://eth.llamarpc.com", 0)], 1⟩) :=
  ⟨rfl,
   (C8_getProvider_idempotent "ethereum" none ⟨[], 0⟩ 0
     ⟨[("ethereum:https://eth.llamarpc.com", 0)], 1⟩ rfl).2⟩

/-! ## Vault read tool: fluid_get_all_vaults (src/tools/vault-read.ts)

The resolver contract calls are abstracted as an oracle of fallible
results: each call either returns a value or fails with an error message
(an unreachable endpoint or a revert). -/

/-- One entry of the vaults list of the tool's JSON output. -/
structure VaultEntry where
  address : String
  vtype : String
  typeValue : ℤ
deriving DecidableEq

/-- JSON output shape of fluid_get_all_vaults. -/
structure AllVaultsOutput where
  chain : String
  totalVaults : ℤ
  vaults : List VaultEntry
deriving DecidableEq

/-- Oracle for the vault resolver contract calls made by the handler. -/
structure VaultResolverOracle where
  getAllVaultsAddresses : Except String (List String)
  getTotalVaults : Except String ℤ
  getVaultType : String → Except String ℤ

/-- Embedding of the VAULT_TYPES record. -/
def VAULT_TYPES (t : ℤ) : Option String :=
  if t = 10000 then some "T1"
  else if t = 20000 then some "T2"
  else if t = 30000 then some "T3"
  else if t = 40000 then some "T4"
  else none

/-- Embedding of VAULT_TYPES[typeNum] || `UNKNOWN(typeNum)`. -/
def vaultTypeName (t : ℤ) : String :=
  match VAULT_TYPES t with
  | some s => s
  | none => "UNKNOWN(" ++ toString t ++ ")"

/-- Per-vault body of the handler's map: the getVaultType call sits in a
try/catch whose catch substitutes a fallback entry. -/
def vaultEntryOf (o : VaultResolverOracle) (v : String) : VaultEntry :=
  match o.getVaultType v with
  | Except.ok typeRaw => ⟨v, vaultTypeName typeRaw, typeRaw⟩
  | Except.error _ => ⟨v, "UNKNOWN", 0⟩

/-- Embedding of the fluid_get_all_vaults handler: the two top-level
resolver calls are awaited (a rejection rejects the handler), then each
vault's type is fetched inside a try/catch. -/
def fluid_get_all_vaults (chain : String) (o : VaultResolverOracle) :
    Except String AllVaultsOutput := do
  let vaults ← o.getAllVaultsAddresses
  let total ← o.getTotalVaults
  Except.ok ⟨chain, total, vaults.map (vaultEntryOf o)⟩

/-- Oracle on which every getVaultType call reverts while the top-level
calls succeed. -/
def revertingOracle : VaultResolverOracle :=
  ⟨Except.ok ["0xv"], Except.ok 1, fun _ => Except.error "execution reverted"⟩

/-- Counterexample for C3 as stated: on an oracle whose getVaultType
contract call fails, the fluid_get_all_vaults handler does not fail — the
failure is caught and recovered into a fallback entry with type "UNKNOWN"
and typeValue 0, and the handler succeeds. -/
theorem C3_counterexample :
    revertingOracle.getVaultType "0xv" = Except.error "execution reverted" ∧
    fluid_get_all_vaults "ethereum" revertingOracle =
      Except.ok ⟨"ethereum", 1, [⟨"0xv", "UNKNOWN", 0⟩]⟩ :=
  ⟨rfl, rfl⟩

/-- C3 amended: failures of the top-level resolver calls
(getAllVaultsAddresses, getTotalVaults) are not retried, classified, or
recovered — they propagate and fail the handler with their message; but a
failure of the per-vault getVaultType call is caught and recovered into a
fallback entry (type "UNKNOWN", typeValue 0), so the handler never fails
because of it. -/
theorem C3_error_propagation (chain : String) (o : VaultResolverOracle)
    (e : String) :
    (o.getAllVaultsAddresses = Except.error e →
      fluid_get_all_vaults chain o = Except.error e) ∧
    (∀ vs, o.getAllVaultsAddresses = Except.ok vs →
      o.getTotalVaults = Except.error e →
      fluid_get_all_vaults chain o = Except.error e) ∧
    (∀ vs t, o.getAllVaultsAddresses = Except.ok vs →
      o.getTotalVaults = Except.ok t →
      fluid_get_all_vaults chain o =
        Except.ok ⟨chain, t, vs.map (vaultEntryOf o)⟩) := by
  refine ⟨?_, ?_, ?_⟩
  · intro h
    unfold fluid_get_all_vaults
    rw [h]
    rfl
  · intro vs h1 h2
    unfold fluid_get_all_vaults
    rw [h1, h2]
    rfl
  · intro vs t h1 h2
    unfold fluid_get_all_vaults
    rw [h1, h2]
    rfl

/-- Oracle on which the top-level address listing fails. -/
def failingOracle : VaultResolverOracle :=
  ⟨Except.error "network unreachable", Except.error "network unreachable",
   fun _ => Except.ok 10000⟩

/-- Oracle on which every call succeeds with a T1 vault. -/
def okOracle : VaultResolverOracle :=
  ⟨Except.ok ["0xa"], Except.ok 1, fun _ => Except.ok 10000⟩

/-- Witness for C3: the amended theorem instantiated on the failing and
the succeeding oracle. -/
theorem C3_witness :
    fluid_get_all_vaults "ethereum" failingOracle =
      Except.error "network unreachable" ∧
    fluid_get_all_vaults "ethereum" okOracle =
      Except.ok ⟨"ethereum", 1, [⟨"0xa", "T1", 10000⟩]⟩ :=
  ⟨(C3_error_propagation "ethereum" failingOracle "network unreachable").1 rfl,
   by
    have h := (C3_error_propagation "ethereum" okOracle "ignored").2.2
      ["0xa"] 1 rfl rfl
    simpa [okOracle, vaultEntryOf, vaultTypeName, VAULT_TYPES] using h⟩

/-! ## Write tools (src/tools/dex-write.ts, vault write tools)

The external ethers calls are abstracted: encodeFunctionData is an
arbitrary encoding function over a method name and argument values, the
JS BigInt string parser is an arbitrary parse function, and the resolver
reads (pool reserves, swap estimate) are oracle inputs. The handlers are
pure functions of these — they hold no signer and perform no submission
call, and their output is the JSON transaction object. -/

/-- Values passed to encodeFunctionData. -/
inductive AbiValue where
  | i (n : ℤ)
  | a (s : String)
  | flag (b : Bool)
  | mm (mn mx : ℤ)
deriving DecidableEq

/-- Decimal string constant INT256_MIN used for closing positions. -/
def INT256_MIN_STR : String :=
  "-57896044618658097711785492504343953926634992332820282019728792003956564819968"

/-- Arguments of the fluid_build_vault_t1_operate tool. -/
structure VaultT1Args where
  chain : String
  vault_address : String
  nft_id : ℤ
  new_col : String
  new_debt : String
  receiver : String

/-- JSON transaction object returned by fluid_build_vault_t1_operate; the
toAddr field embeds the JSON key holding the target contract address. -/
structure VaultT1Tx where
  chain : String
  action : String
  toAddr : String
  data : String
  value : String
  nftId : ℤ
  newCol : String
  newDebt : String
  receiver : String

/-- Embedding of the fluid_build_vault_t1_operate handler. -/
def fluid_build_vault_t1_operate (encode : String → List AbiValue → String)
    (parseBigInt : String → ℤ) (args : VaultT1Args) : VaultT1Tx :=
  let newColValue := if args.new_col = "INT256_MIN" then INT256_MIN_STR else args.new_col
  let newDebtValue := if args.new_debt = "INT256_MIN" then INT256_MIN_STR else args.new_debt
  let txData := encode "operate"
    [AbiValue.i args.nft_id, AbiValue.i (parseBigInt newColValue),
     AbiValue.i (parseBigInt newDebtValue), AbiValue.a args.receiver]
  let value := if newColValue ≠ "INT256_MIN" ∧ 0 < parseBigInt newColValue
    then newColValue else "0"
  ⟨args.chain, "vault_t1_operate", args.vault_address, txData, value,
   args.nft_id, newColValue, newDebtValue, args.receiver⟩

/-- Adjusted pool reserves returned by getPoolReservesAdjusted. -/
structure Reserves where
  token0 : String
  token1 : String
  colReserves0Adjusted : ℤ
  colReserves1Adjusted : ℤ
  debtReserves0Adjusted : ℤ
  debtReserves1Adjusted : ℤ

/-- Arguments of the fluid_build_swap_exact_input tool. -/
structure SwapInArgs where
  chain : String
  pool_address : String
  swap_0_to_1 : Bool
  amount_in : String
  slippage_bps : Option ℤ
  receiver : String

/-- Arguments of the fluid_build_swap_exact_output tool. -/
structure SwapOutArgs where
  chain : String
  pool_address : String
  swap_0_to_1 : Bool
  amount_out : String
  slippage_bps : Option ℤ
  receiver : String

/-- JSON transaction object returned by the swap builders (common
fields); the toAddr field embeds the JSON key holding the target
contract address. -/
structure SwapTx where
  chain : String
  action : String
  toAddr : String
  data : String
  value : String
  slippageBps : ℤ

/-- Resolution of args.slippage_bps || 50: an omitted value — and, 0
being falsy in JS, an explicit 0 — becomes the 50 bps default. -/
def resolveSlippageBps (o : Option ℤ) : ℤ :=
  match o with
  | none => 50
  | some s => if s = 0 then 50 else s

/-- Slippage applied to the estimated output of swapIn:
(estimatedOut * (10000n - slippageBps)) / 10000n with JS bigint
truncating division. -/
def computeAmountOutMin (estimatedOut slippageBps : ℤ) : ℤ :=
  Int.tdiv (estimatedOut * (10000 - slippageBps)) 10000

/-- Slippage applied to the estimated input of swapOut:
(estimatedIn * (10000n + slippageBps)) / 10000n with JS bigint
truncating division. -/
def computeAmountInMax (estimatedIn slippageBps : ℤ) : ℤ :=
  Int.tdiv (estimatedIn * (10000 + slippageBps)) 10000

/-- Native-token placeholder address compared against the input token. -/
def nativeAddr : String := "0xEeeeeEeeeEeEeeEeEeEeeEEEeeeeEeeeeeeeEEeE"

/-- Embedding of the fluid_build_swap_exact_input handler; reserves and
estimatedOut are the results of the two resolver reads. -/
def fluid_build_swap_exact_input (encode : String → List AbiValue → String)
    (parseBigInt : String → ℤ) (reserves : Reserves) (estimatedOut : ℤ)
    (args : SwapInArgs) : SwapTx :=
  let slippageBps := resolveSlippageBps args.slippage_bps
  let amountOutMin := computeAmountOutMin estimatedOut slippageBps
  let txData := encode "swapIn"
    [AbiValue.flag args.swap_0_to_1, AbiValue.i (parseBigInt args.amount_in),
     AbiValue.i amountOutMin, AbiValue.a args.receiver]
  let inputToken := if args.swap_0_to_1 then reserves.token0 else reserves.token1
  let value := if jsToLower inputToken = jsToLower nativeAddr
    then args.amount_in else "0"
  ⟨args.chain, "swapIn", args.pool_address, txData, value, slippageBps⟩

/-- Embedding of the fluid_build_swap_exact_output handler; reserves and
estimatedIn are the results of the two resolver reads. -/
def fluid_build_swap_exact_output (encode : String → List AbiValue → String)
    (parseBigInt : String → ℤ) (reserves : Reserves) (estimatedIn : ℤ)
    (args : SwapOutArgs) : SwapTx :=
  let slippageBps := resolveSlippageBps args.slippage_bps
  let amountInMax := computeAmountInMax estimatedIn slippageBps
  let txData := encode "swapOut"
    [AbiValue.flag args.swap_0_to_1, AbiValue.i (parseBigInt args.amount_out),
     AbiValue.i amountInMax, AbiValue.a args.receiver]
  let inputToken := if args.swap_0_to_1 then reserves.token0 else reserves.token1
  let value := if jsToLower inputToken = jsToLower nativeAddr
    then toString amountInMax else "0"
  ⟨args.chain, "swapOut", args.pool_address, txData, value, slippageBps⟩

/-- C9: every write tool returns an unsigned transaction object with the
action name, the target contract address in its to field, the
ABI-encoded calldata for the corresponding contract method applied to
the tool's arguments in its data field, and a value field; it is a pure
function of its arguments and the read results — it holds no signer and
performs no submission, for any encoding and parsing functions. Shown
for the cited fluid_build_vault_t1_operate and
fluid_build_swap_exact_input handlers. -/
theorem C9_write_tools_return_unsigned_tx
    (encode : String → List AbiValue → String) (parseBigInt : String → ℤ)
    (targs : VaultT1Args) (sargs : SwapInArgs) (reserves : Reserves)
    (estimatedOut : ℤ) :
    (fluid_build_vault_t1_operate encode parseBigInt targs).action =
      "vault_t1_operate" ∧
    (fluid_build_vault_t1_operate encode parseBigInt targs).toAddr =
      targs.vault_address ∧
    (fluid_build_vault_t1_operate encode parseBigInt targs).data =
      encode "operate"
        [AbiValue.i targs.nft_id,
         AbiValue.i (parseBigInt
           (if targs.new_col = "INT256_MIN" then INT256_MIN_STR else targs.new_col)),
         AbiValue.i (parseBigInt
           (if targs.new_debt = "INT256_MIN" then INT256_MIN_STR else targs.new_debt)),
         AbiValue.a targs.receiver] ∧
    (fluid_build_vault_t1_operate encode parseBigInt targs).value =
      (if (if targs.new_col = "INT256_MIN" then INT256_MIN_STR else targs.new_col) ≠
          "INT256_MIN" ∧
          0 < parseBigInt
            (if targs.new_col = "INT256_MIN" then INT256_MIN_STR else targs.new_col)
        then (if targs.new_col = "INT256_MIN" then INT256_MIN_STR else targs.new_col)
        else "0") ∧
    (fluid_build_swap_exact_input encode parseBigInt reserves estimatedOut
      sargs).action = "swapIn" ∧
    (fluid_build_swap_exact_input encode parseBigInt reserves estimatedOut
      sargs).toAddr = sargs.pool_address ∧
    (fluid_build_swap_exact_input encode parseBigInt reserves estimatedOut
      sargs).data =
      encode "swapIn"
        [AbiValue.flag sargs.swap_0_to_1, AbiValue.i (parseBigInt sargs.amount_in),
         AbiValue.i (computeAmountOutMin estimatedOut
           (resolveSlippageBps sargs.slippage_bps)),
         AbiValue.a sargs.receiver] ∧
    (fluid_build_swap_exact_input encode parseBigInt reserves estimatedOut
      sargs).value =
      (if jsToLower (if sargs.swap_0_to_1 then reserves.token0 else reserves.token1) =
          jsToLower nativeAddr
        then sargs.amount_in else "0") :=
  ⟨rfl, rfl, rfl, rfl, rfl, rfl, rfl, rfl⟩

/-- Counterexample for C10 as stated: with slippageBps = 10001 the
truncating bigint division differs from the claimed floor (0 versus -1
at estimatedOut = 1), and with a negative slippageBps = -10000 (which
the schema does not rule out and the || 50 default keeps) the claimed
bound amountOutMin ≤ estimatedOut fails (2 > 1) even though
slippageBps ≤ 10000. -/
theorem C10_counterexample :
    computeAmountOutMin 1 10001 = 0 ∧
    Int.fdiv (1 * (10000 - 10001)) 10000 = -1 ∧
    resolveSlippageBps (some (-10000)) = -10000 ∧
    computeAmountOutMin 1 (-10000) = 2 ∧
    ¬computeAmountOutMin 1 (-10000) ≤ 1 := by
  refine ⟨?_, ?_, ?_, ?_, ?_⟩ <;> decide

/-- C10 amended: for non-negative estimates and a slippage value between
0 and 10000 basis points, the swap builders apply exact integer
arithmetic — amountOutMin = floor(est * (10000 - s) / 10000), which is
at most the estimate, and amountInMax = floor(est * (10000 + s) / 10000),
which is at least the estimate — and an omitted slippage resolves to the
50 bps default. -/
theorem C10_slippage_arithmetic (est s : ℤ) (hest : 0 ≤ est) (hs0 : 0 ≤ s)
    (hs1 : s ≤ 10000) :
    computeAmountOutMin est s = Int.fdiv (est * (10000 - s)) 10000 ∧
    computeAmountOutMin est s ≤ est ∧
    computeAmountInMax est s = Int.fdiv (est * (10000 + s)) 10000 ∧
    est ≤ computeAmountInMax est s ∧
    resolveSlippageBps none = 50 := by
  have hout : computeAmountOutMin est s = est * (10000 - s) / 10000 := by
    unfold computeAmountOutMin
    exact Int.tdiv_eq_ediv (mul_nonneg hest (by omega)) (by norm_num)
  have hin : computeAmountInMax est s = est * (10000 + s) / 10000 := by
    unfold computeAmountInMax
    exact Int.tdiv_eq_ediv (mul_nonneg hest (by omega)) (by norm_num)
  refine ⟨?_, ?_, ?_, ?_, rfl⟩
  · rw [hout, Int.fdiv_eq_ediv _ (by norm_num)]
  · rw [hout]
    calc est * (10000 - s) / 10000 ≤ est * 10000 / 10000 :=
          Int.ediv_le_ediv (by norm_num)
            (mul_le_mul_of_nonneg_left (by omega) hest)
      _ = est := Int.mul_ediv_cancel est (by norm_num)
  · rw [hin, Int.fdiv_eq_ediv _ (by norm_num)]
  · rw [hin]
    calc est = est * 10000 / 10000 := (Int.mul_ediv_cancel est (by norm_num)).symm
      _ ≤ est * (10000 + s) / 10000 :=
          Int.ediv_le_ediv (by norm_num)
            (mul_le_mul_of_nonneg_left (by omega) hest)

/-- Witness for C10 at estimate 100 and the default slippage 50. -/
theorem C10_witness :
    0 ≤ (100 : ℤ) ∧ 0 ≤ (50 : ℤ) ∧ (50 : ℤ) ≤ 10000 ∧
    computeAmountOutMin 100 50 ≤ 100 ∧ 100 ≤ computeAmountInMax 100 50 :=
  ⟨by norm_num, by norm_num, by norm_num,
   (C10_slippage_arithmetic 100 50 (by norm_num) (by norm_num) (by norm_num)).2.1,
   (C10_slippage_arithmetic 100 50 (by norm_num) (by norm_num)
     (by norm_num)).2.2.2.1⟩
